import Mathlib

/-!
Shallow embedding of the course-management system: a Mongo-backed Express
server (`server/index.js` routes over the `Course` and `Student` mongoose
models) and the React dashboard component (`CourseManagement.jsx`) that
derives fee aggregates from the fetched course list.

The store is modelled as explicit state: a list of courses, a list of
students, and a fresh-id counter standing for MongoDB ObjectId generation
(ObjectIds are unique and never reused, which the counter captures as
monotonically increasing ids). Each route handler becomes a function from
the request payload and the store to an HTTP-style response paired with the
next store.
-/

namespace CourseMgmt

/-- A stored `Course` document (`server/models/Course.js`): `title` is
required, `description`/`whatYouLearn`/dates are optional, `language`
defaults to "English" at creation. -/
structure Course where
  id : Nat
  title : String
  description : Option String
  whatYouLearn : Option String
  language : String
  startDate : Option String
  endDate : Option String
deriving Repr, DecidableEq

/-- A stored `Student` document (`models/Student.js`): `name`, `email` and
`courseId` are required by the schema; `phone`, `joinDate`, fee fields and
`reminderMessage` are optional in the schema but always supplied by the
client form (`handleSaveStudent`), so they are carried as plain fields.
Fee amounts are integers (JS numbers used integrally by the app). -/
structure Student where
  id : Nat
  name : String
  email : String
  phone : String
  joinDate : String
  totalFee : Int
  paidAmount : Int
  reminderMessage : String
  courseId : Nat
deriving Repr, DecidableEq

/-- The persistent store: both collections plus the next fresh ObjectId. -/
structure DB where
  courses : List Course
  students : List Student
  nextId : Nat
deriving Repr, DecidableEq

/-- An HTTP-style response: status code and optional body, mirroring
`res.status(..).json(..)` / `res.json(null)` in the Express handlers. -/
structure Response (α : Type) where
  status : Nat
  body : Option α
deriving Repr, DecidableEq

/-- Payload for `POST /api/courses` and `PUT /api/courses/:id` (the same
field set in both cases, every field optional: mongoose validates only
`title` on save, and `findByIdAndUpdate` applies whichever fields are
present). -/
structure CourseInput where
  title : Option String
  description : Option String
  whatYouLearn : Option String
  language : Option String
  startDate : Option String
  endDate : Option String
deriving Repr, DecidableEq

/-- Payload for `POST /api/students`: schema-required fields are optional
here (their absence makes `save()` fail validation); the remaining fields
are always sent by the client form. -/
structure StudentInput where
  name : Option String
  email : Option String
  phone : String
  joinDate : String
  totalFee : Int
  paidAmount : Int
  reminderMessage : String
  courseId : Option Nat
deriving Repr, DecidableEq

/-- Payload for `PUT /api/students/:id`: a partial field set applied by
`findByIdAndUpdate` (the client sends all fields, including `courseId` and
`reminderMessage`, but any subset is accepted). -/
structure StudentUpdate where
  name : Option String
  email : Option String
  phone : Option String
  joinDate : Option String
  totalFee : Option Int
  paidAmount : Option Int
  reminderMessage : Option String
  courseId : Option Nat
deriving Repr, DecidableEq

/-- `findByIdAndUpdate` on a course: provided fields overwrite, absent
fields are kept; the `_id` is immutable. -/
def applyCourseUpdate (c : Course) (u : CourseInput) : Course :=
  { c with
    title := u.title.getD c.title
    description := u.description <|> c.description
    whatYouLearn := u.whatYouLearn <|> c.whatYouLearn
    language := u.language.getD c.language
    startDate := u.startDate <|> c.startDate
    endDate := u.endDate <|> c.endDate }

/-- `findByIdAndUpdate` on a student: provided fields overwrite, absent
fields are kept; the `_id` is immutable. -/
def applyStudentUpdate (s : Student) (u : StudentUpdate) : Student :=
  { s with
    name := u.name.getD s.name
    email := u.email.getD s.email
    phone := u.phone.getD s.phone
    joinDate := u.joinDate.getD s.joinDate
    totalFee := u.totalFee.getD s.totalFee
    paidAmount := u.paidAmount.getD s.paidAmount
    reminderMessage := u.reminderMessage.getD s.reminderMessage
    courseId := u.courseId.getD s.courseId }

/-- `GET /api/courses`: every course paired with the students whose
`courseId` equals the course's `_id` (`Student.find({ courseId })` per
course). -/
def listCoursesWithStudents (db : DB) : List (Course × List Student) :=
  db.courses.map (fun c => (c, db.students.filter (fun s => s.courseId == c.id)))

/-- `POST /api/courses`: `new Course(req.body).save()` — validation fails
(400) when `title` is missing, otherwise the course is stored with a fresh
id and returned with status 201. -/
def createCourse (inp : CourseInput) (db : DB) : Response Course × DB :=
  match inp.title with
  | none => (⟨400, none⟩, db)
  | some t =>
    let c : Course :=
      { id := db.nextId
        title := t
        description := inp.description
        whatYouLearn := inp.whatYouLearn
        language := inp.language.getD "English"
        startDate := inp.startDate
        endDate := inp.endDate }
    (⟨201, some c⟩, { db with courses := db.courses ++ [c], nextId := db.nextId + 1 })

/-- `PUT /api/courses/:id`: `Course.findByIdAndUpdate(id, body, {new:true})`
followed by `res.json(updatedCourse)`. An unknown id does not throw: the
update returns `null` and the handler answers 200 with a null body, leaving
the store unchanged. -/
def updateCourse (cid : Nat) (u : CourseInput) (db : DB) : Response Course × DB :=
  match db.courses.find? (fun c => c.id == cid) with
  | none => (⟨200, none⟩, db)
  | some c =>
    (⟨200, some (applyCourseUpdate c u)⟩,
     { db with courses :=
        db.courses.map (fun x => if x.id == cid then applyCourseUpdate x u else x) })

/-- `DELETE /api/courses/:id`: `await Student.deleteMany({courseId})` then
`await Course.findByIdAndDelete(courseId)`, inside `try/catch` returning
500 on a rejected await. The two booleans are the failure oracle for the
two awaited storage operations: when the student deletion rejects, the
catch runs before the course deletion is ever attempted. -/
def deleteCourse (failStudents failCourse : Bool) (cid : Nat) (db : DB) :
    Response String × DB :=
  if failStudents then (⟨500, none⟩, db)
  else
    let db1 := { db with students := db.students.filter (fun s => s.courseId != cid) }
    if failCourse then (⟨500, none⟩, db1)
    else
      (⟨200, some "Course and related students deleted"⟩,
       { db1 with courses := db1.courses.filter (fun c => c.id != cid) })

/-- `POST /api/students`: `new Student(req.body).save()` — mongoose rejects
(400) a missing `name`, `email` or `courseId`; otherwise the student is
stored with a fresh id and returned with 201. Note: the schema's
`ref: 'Course'` does not check that `courseId` names an existing course, so
the save succeeds even for a dangling reference. -/
def createStudent (inp : StudentInput) (db : DB) : Response Student × DB :=
  match inp.name, inp.email, inp.courseId with
  | some nm, some em, some cid =>
    let s : Student :=
      { id := db.nextId
        name := nm
        email := em
        phone := inp.phone
        joinDate := inp.joinDate
        totalFee := inp.totalFee
        paidAmount := inp.paidAmount
        reminderMessage := inp.reminderMessage
        courseId := cid }
    (⟨201, some s⟩, { db with students := db.students ++ [s], nextId := db.nextId + 1 })
  | _, _, _ => (⟨400, none⟩, db)

/-- `PUT /api/students/:id`: `Student.findByIdAndUpdate(id, body, {new:true})`
followed by `res.json(updatedStudent)`; as for courses, an unknown id
yields 200 with a null body and an unchanged store. -/
def updateStudent (sid : Nat) (u : StudentUpdate) (db : DB) : Response Student × DB :=
  match db.students.find? (fun s => s.id == sid) with
  | none => (⟨200, none⟩, db)
  | some s =>
    (⟨200, some (applyStudentUpdate s u)⟩,
     { db with students :=
        db.students.map (fun x => if x.id == sid then applyStudentUpdate x u else x) })

/-- `DELETE /api/students/:id`: `Student.findByIdAndDelete(id)` — removes
the student with that id when present, never throws for an unknown id, and
answers 200 either way. -/
def deleteStudent (sid : Nat) (db : DB) : Response String × DB :=
  (⟨200, some "Student deleted"⟩,
   { db with students := db.students.filter (fun s => s.id != sid) })

/-- The mutating operations a client can issue against the API. -/
inductive Op where
  | createCourse (inp : CourseInput)
  | updateCourse (cid : Nat) (u : CourseInput)
  | deleteCourse (cid : Nat)
  | createStudent (inp : StudentInput)
  | updateStudent (sid : Nat) (u : StudentUpdate)
  | deleteStudent (sid : Nat)
deriving Repr, DecidableEq

/-- The store reached after one operation (the handler's state component;
for course deletion the storage-success path, as reachability concerns the
states the system actually moves through). -/
def Op.apply (op : Op) (db : DB) : DB :=
  match op with
  | .createCourse inp => (CourseMgmt.createCourse inp db).2
  | .updateCourse cid u => (CourseMgmt.updateCourse cid u db).2
  | .deleteCourse cid => (CourseMgmt.deleteCourse false false cid db).2
  | .createStudent inp => (CourseMgmt.createStudent inp db).2
  | .updateStudent sid u => (CourseMgmt.updateStudent sid u db).2
  | .deleteStudent sid => (CourseMgmt.deleteStudent sid db).2

/-- The store reached after a sequence of operations. -/
def applyOps (ops : List Op) (db : DB) : DB :=
  ops.foldl (fun db op => op.apply db) db

/-!
Client side (`CourseManagement.jsx`): the dashboard works on the JSON
course objects fetched from `GET /api/courses`, each carrying a `students`
array. The component reads `c.students` defensively (`c.students?.… || 0`),
so the field is modelled as optional.
-/

/-- A course object as the dashboard sees it: the course fields plus an
optional nested `students` array. -/
structure CourseView where
  course : Course
  students : Option (List Student)
deriving Repr, DecidableEq

/-- Dashboard aggregate `totalStudents`:
`courses.reduce((sum, c) => sum + (c.students?.length || 0), 0)`. -/
def totalStudents (cs : List CourseView) : Nat :=
  cs.foldl
    (fun sum c => sum + (match c.students with | none => 0 | some ss => ss.length)) 0

/-- Dashboard aggregate `totalCourses = courses.length`. -/
def totalCourses (cs : List CourseView) : Nat :=
  cs.length

/-- One student's contribution to the pending-fees aggregate:
`s.paidAmount < s.totalFee ? s.totalFee - s.paidAmount : 0`. -/
def studentPending (s : Student) : Int :=
  if s.paidAmount < s.totalFee then s.totalFee - s.paidAmount else 0

/-- Dashboard aggregate `totalPendingFees`: the nested reduce over courses
and their students, with `|| 0` for a missing `students` array. -/
def totalPendingFees (cs : List CourseView) : Int :=
  cs.foldl
    (fun sum c => sum +
      (match c.students with
       | none => 0
       | some ss => ss.foldl (fun sSum s => sSum + studentPending s) 0)) 0

/-- Dashboard aggregate `reminders`:
`courses.reduce((sum, c) => sum + (c.students?.filter(s => s.paidAmount < s.totalFee).length || 0), 0)`. -/
def reminders (cs : List CourseView) : Nat :=
  cs.foldl
    (fun sum c => sum +
      (match c.students with
       | none => 0
       | some ss => (ss.filter (fun s => decide (s.paidAmount < s.totalFee))).length)) 0

/-- `getFeeStatusBadge`: `const isPaid = student.paidAmount >= student.totalFee`. -/
def isPaid (s : Student) : Bool :=
  decide (s.paidAmount ≥ s.totalFee)

/-- JavaScript `phone.startsWith("+")`: true exactly when the first
character of the string is '+'. -/
def jsStartsWithPlus (phone : String) : Bool :=
  match phone.data with
  | c :: _ => c == '+'
  | [] => false

/-- Phone normalization in `handleSaveStudent`: the submitted phone is kept
as-is when it starts with "+", and prefixed with "+91" otherwise. -/
def normalizePhone (phone : String) : String :=
  if jsStartsWithPlus phone then phone else "+91" ++ phone

/-- JavaScript `parseInt` restricted to the strings a number-typed form
input can hold (so no hexadecimal `0x` prefix detection): skip leading
whitespace, read an optional sign, then the longest run of decimal digits;
NaN (here `none`) when that run is empty. -/
def jsParseInt (str : String) : Option Int :=
  let cs := str.data.dropWhile (fun c => c == ' ' || c == '\t' || c == '\n' || c == '\r')
  let signed : Int × List Char :=
    match cs with
    | '-' :: r => (-1, r)
    | '+' :: r => (1, r)
    | _ => (1, cs)
  let ds := signed.2.takeWhile Char.isDigit
  if ds.isEmpty then none
  else some (signed.1 * ((ds.foldl (fun n c => n * 10 + (c.toNat - 48)) 0 : Nat) : Int))

/-- `handleSaveStudent`: `const totalFee = parseInt(form.totalFee.value) || 18000` —
both NaN and 0 are falsy, so both fall back to 18000. -/
def totalFeeOf (v : String) : Int :=
  match jsParseInt v with
  | none => 18000
  | some n => if n = 0 then 18000 else n

/-- `handleSaveStudent`: `const paidAmount = parseInt(form.paidAmount?.value) || 0`. -/
def paidAmountOf (v : String) : Int :=
  match jsParseInt v with
  | none => 0
  | some n => if n = 0 then 0 else n

/-! Sample store used to instantiate witness statements: the "Math 101"
scenario of the spec (Alice fully paid, Bob with a pending balance). -/

/-- Sample course "Math 101" with id 0. -/
def mathCourse : Course :=
  { id := 0, title := "Math 101", description := some "Intro"
    whatYouLearn := some "Algebra", language := "English"
    startDate := some "2024-01-01", endDate := some "2024-03-01" }

/-- Sample course "Physics" with id 1. -/
def physCourse : Course :=
  { id := 1, title := "Physics", description := none
    whatYouLearn := none, language := "English"
    startDate := none, endDate := none }

/-- Sample fully paid student Alice, enrolled in course 0. -/
def alice : Student :=
  { id := 2, name := "Alice", email := "alice@example.com"
    phone := "+919876543210", joinDate := "2024-01-05"
    totalFee := 18000, paidAmount := 18000, reminderMessage := "", courseId := 0 }

/-- Sample student Bob with a pending balance, enrolled in course 1. -/
def bob : Student :=
  { id := 3, name := "Bob", email := "bob@example.com"
    phone := "+919876543211", joinDate := "2024-01-06"
    totalFee := 18000, paidAmount := 5000, reminderMessage := "", courseId := 1 }

/-- Sample store holding both courses and both students. -/
def sampleDB : DB :=
  { courses := [mathCourse, physCourse], students := [alice, bob], nextId := 4 }

/-- The empty store. -/
def emptyDB : DB :=
  { courses := [], students := [], nextId := 0 }

/-- A course update payload carrying no fields. -/
def emptyCourseUpdate : CourseInput :=
  { title := none, description := none, whatYouLearn := none
    language := none, startDate := none, endDate := none }

/-- A student update payload carrying no fields. -/
def emptyStudentUpdate : StudentUpdate :=
  { name := none, email := none, phone := none, joinDate := none
    totalFee := none, paidAmount := none, reminderMessage := none, courseId := none }

/-- A create-student payload whose `courseId` (999) references no course. -/
def danglingStudentInput : StudentInput :=
  { name := some "Eve", email := some "eve@example.com"
    phone := "+919876543212", joinDate := "2024-02-01"
    totalFee := 18000, paidAmount := 0, reminderMessage := "", courseId := some 999 }

/-! Helper lemmas. -/

/-- A left fold that keeps adding `g x` is the starting value plus the sum
of the mapped list. -/
theorem foldl_add_map_sum {α M : Type} [AddCommMonoid M] (g : α → M) (l : List α) (n : M) :
    l.foldl (fun a x => a + g x) n = n + (l.map g).sum := by
  induction l generalizing n with
  | nil => simp
  | cons x xs ih => simp [ih, add_assoc]

/-- `totalStudents` as a sum over per-course contributions. -/
theorem totalStudents_eq_sum (cs : List CourseView) :
    totalStudents cs
      = (cs.map (fun c => match c.students with | none => 0 | some ss => ss.length)).sum :=
  (foldl_add_map_sum _ cs 0).trans (Nat.zero_add _)

/-- The inner pending-fee fold as a sum. -/
theorem pendingFold_eq_sum (ss : List Student) :
    ss.foldl (fun a s => a + studentPending s) 0 = (ss.map studentPending).sum :=
  (foldl_add_map_sum _ ss 0).trans (zero_add _)

/-- `totalPendingFees` as a sum over per-course contributions. -/
theorem totalPendingFees_eq_sum (cs : List CourseView) :
    totalPendingFees cs
      = (cs.map (fun c => match c.students with
          | none => 0
          | some ss => ss.foldl (fun a s => a + studentPending s) 0)).sum :=
  (foldl_add_map_sum _ cs 0).trans (zero_add _)

/-- `reminders` as a sum over per-course contributions. -/
theorem reminders_eq_sum (cs : List CourseView) :
    reminders cs
      = (cs.map (fun c => match c.students with
          | none => 0
          | some ss => (ss.filter (fun s => decide (s.paidAmount < s.totalFee))).length)).sum :=
  (foldl_add_map_sum _ cs 0).trans (Nat.zero_add _)

/-- The conditional pending amount equals the max-with-zero form. -/
theorem studentPending_eq_max (s : Student) :
    studentPending s = max 0 (s.totalFee - s.paidAmount) := by
  unfold studentPending
  rcases lt_or_ge s.paidAmount s.totalFee with h | h
  · rw [if_pos h, max_eq_right (by omega)]
  · rw [if_neg (by omega), max_eq_left (by omega)]

/-! Claim theorems (client side). -/

/-- C2: the dashboard aggregate `totalPendingFees` equals the sum over all
students of `max 0 (totalFee - paidAmount)`, and each student's
contribution `studentPending` is that max, hence never negative. -/
theorem totalPendingFees_spec (cs : List CourseView) :
    totalPendingFees cs
      = (cs.map (fun c =>
          ((c.students.getD []).map (fun s => max 0 (s.totalFee - s.paidAmount))).sum)).sum
    ∧ ∀ s : Student,
        studentPending s = max 0 (s.totalFee - s.paidAmount) ∧ 0 ≤ studentPending s := by
  constructor
  · rw [totalPendingFees_eq_sum]
    congr 1
    apply List.map_congr_left
    intro c _
    cases hcs : c.students with
    | none => simp
    | some ss =>
      simp only [Option.getD_some]
      rw [pendingFold_eq_sum]
      congr 1
      apply List.map_congr_left
      intro s _
      exact studentPending_eq_max s
  · intro s
    refine ⟨studentPending_eq_max s, ?_⟩
    rw [studentPending_eq_max s]
    exact le_max_left _ _

/-- C6: `isPaid` holds exactly when `paidAmount >= totalFee`, and the
`reminders` aggregate counts exactly the students with `isPaid` false,
i.e. those with `paidAmount < totalFee`. -/
theorem isPaid_reminders_spec (s : Student) (cv : CourseView) (ss : List Student)
    (h : cv.students = some ss) :
    ((isPaid s = true ↔ s.paidAmount ≥ s.totalFee) ∧
     (isPaid s = false ↔ s.paidAmount < s.totalFee)) ∧
    reminders [cv] = (ss.filter (fun t => ! isPaid t)).length := by
  refine ⟨⟨by simp [isPaid], ?_⟩, ?_⟩
  · simp only [isPaid, decide_eq_false_iff_not]
    omega
  · simp only [reminders, List.foldl_cons, List.foldl_nil, h, Nat.zero_add]
    congr 1
    apply List.filter_congr
    intro t _
    by_cases ht : t.paidAmount < t.totalFee
    · have h2 : ¬ t.paidAmount ≥ t.totalFee := by omega
      simp [isPaid, ht, h2]
    · have h2 : t.paidAmount ≥ t.totalFee := by omega
      simp [isPaid, ht, h2]

/-- C6 witness: the property at Bob (pending balance) inside the Physics
course view. -/
theorem isPaid_reminders_spec_witness :
    ((⟨physCourse, some [bob]⟩ : CourseView).students = some [bob]) ∧
    (((isPaid bob = true ↔ bob.paidAmount ≥ bob.totalFee) ∧
      (isPaid bob = false ↔ bob.paidAmount < bob.totalFee)) ∧
     reminders [⟨physCourse, some [bob]⟩] = (([bob]).filter (fun t => ! isPaid t)).length) :=
  ⟨rfl, isPaid_reminders_spec bob ⟨physCourse, some [bob]⟩ [bob] rfl⟩

/-- C7: saving a student normalizes the phone: a value not starting with
'+' is prefixed with "+91"; a value already starting with '+' is kept. -/
theorem phone_normalization (p : String) :
    (jsStartsWithPlus p = false → normalizePhone p = "+91" ++ p) ∧
    (jsStartsWithPlus p = true → normalizePhone p = p) := by
  constructor <;> intro h <;> simp [normalizePhone, h]

/-- C7 witness: "9876543210" becomes "+919876543210" and "+19876543210"
stays unchanged. -/
theorem phone_normalization_witness :
    normalizePhone "9876543210" = "+919876543210" ∧
    normalizePhone "+19876543210" = "+19876543210" := by
  constructor
  · exact ((phone_normalization "9876543210").1 (by decide)).trans (by decide)
  · exact (phone_normalization "+19876543210").2 (by decide)

/-- C9: a course whose `students` field is absent contributes nothing to
`totalStudents`, `totalPendingFees` and `reminders`, and exactly one to
`totalCourses`; the aggregates are total functions on any course list. -/
theorem aggregates_missing_students (cv : CourseView) (pre post : List CourseView)
    (h : cv.students = none) :
    totalStudents (pre ++ cv :: post) = totalStudents (pre ++ post) ∧
    totalPendingFees (pre ++ cv :: post) = totalPendingFees (pre ++ post) ∧
    reminders (pre ++ cv :: post) = reminders (pre ++ post) ∧
    totalCourses (pre ++ cv :: post) = totalCourses (pre ++ post) + 1 := by
  refine ⟨?_, ?_, ?_, ?_⟩
  · rw [totalStudents_eq_sum, totalStudents_eq_sum]
    simp [h]
  · rw [totalPendingFees_eq_sum, totalPendingFees_eq_sum]
    simp [h]
  · rw [reminders_eq_sum, reminders_eq_sum]
    simp [h]
  · simp only [totalCourses, List.length_append, List.length_cons]
    omega

/-- C9 witness: inserting a students-less Math course view between a
populated Physics view and nothing leaves the three student aggregates
unchanged and adds one course. -/
theorem aggregates_missing_students_witness :
    ((⟨mathCourse, none⟩ : CourseView).students = none) ∧
    (totalStudents ([⟨physCourse, some [bob]⟩] ++ (⟨mathCourse, none⟩ : CourseView) :: [])
        = totalStudents ([⟨physCourse, some [bob]⟩] ++ []) ∧
     totalPendingFees ([⟨physCourse, some [bob]⟩] ++ (⟨mathCourse, none⟩ : CourseView) :: [])
        = totalPendingFees ([⟨physCourse, some [bob]⟩] ++ []) ∧
     reminders ([⟨physCourse, some [bob]⟩] ++ (⟨mathCourse, none⟩ : CourseView) :: [])
        = reminders ([⟨physCourse, some [bob]⟩] ++ []) ∧
     totalCourses ([⟨physCourse, some [bob]⟩] ++ (⟨mathCourse, none⟩ : CourseView) :: [])
        = totalCourses ([⟨physCourse, some [bob]⟩] ++ []) + 1) :=
  ⟨rfl, aggregates_missing_students ⟨mathCourse, none⟩ [⟨physCourse, some [bob]⟩] [] rfl⟩

/-- C10: a totalFee form value that is unparseable or parses to 0 is
replaced by the default 18000, a paidAmount value that is unparseable or
parses to 0 becomes 0, and no form value can yield a stored totalFee of 0. -/
theorem fee_defaults (v w u : String)
    (hv : jsParseInt v = none ∨ jsParseInt v = some 0)
    (hw : jsParseInt w = none ∨ jsParseInt w = some 0) :
    totalFeeOf v = 18000 ∧ paidAmountOf w = 0 ∧ totalFeeOf u ≠ 0 := by
  refine ⟨?_, ?_, ?_⟩
  · rcases hv with h | h <;> simp [totalFeeOf, h]
  · rcases hw with h | h <;> simp [paidAmountOf, h]
  · rcases hj : jsParseInt u with _ | n
    · simp [totalFeeOf, hj]
    · by_cases hn : n = 0 <;> simp [totalFeeOf, hj, hn]

/-- C10 witness: an empty totalFee field and a "0" paidAmount field take
their defaults, and "-7" shows a parsed nonzero fee is kept nonzero. -/
theorem fee_defaults_witness :
    (jsParseInt "" = none ∨ jsParseInt "" = some 0) ∧
    (jsParseInt "0" = none ∨ jsParseInt "0" = some 0) ∧
    (totalFeeOf "" = 18000 ∧ paidAmountOf "0" = 0 ∧ totalFeeOf "-7" ≠ 0) :=
  ⟨by decide, by decide, fee_defaults "" "0" "-7" (by decide) (by decide)⟩

/-! Server-side lemmas: after a course id has been deleted it never names a
live course again, because MongoDB never reuses ObjectIds (the fresh-id
counter only grows). -/

/-- Course updates never change the `_id`. -/
theorem applyCourseUpdate_id (c : Course) (u : CourseInput) :
    (applyCourseUpdate c u).id = c.id := rfl

/-- Student updates never change the `_id`. -/
theorem applyStudentUpdate_id (s : Student) (u : StudentUpdate) :
    (applyStudentUpdate s u).id = s.id := rfl

/-- Invariant: no live course carries id `d`, and `d` is below the fresh-id
counter (so no later insertion can reuse it). -/
def NoLiveCourse (d : Nat) (db : DB) : Prop :=
  (∀ c ∈ db.courses, c.id ≠ d) ∧ d < db.nextId

/-- Every API operation preserves `NoLiveCourse`. -/
theorem noLiveCourse_apply (d : Nat) (op : Op) (db : DB)
    (h : NoLiveCourse d db) : NoLiveCourse d (op.apply db) := by
  obtain ⟨hc, hn⟩ := h
  cases op with
  | createCourse inp =>
    cases ht : inp.title with
    | none =>
      simp only [Op.apply, createCourse, ht]
      exact ⟨hc, hn⟩
    | some t =>
      simp only [Op.apply, createCourse, ht]
      refine ⟨?_, by show d < db.nextId + 1; omega⟩
      intro c hmem
      rcases List.mem_append.mp hmem with hm | hm
      · exact hc c hm
      · rw [List.mem_singleton] at hm
        subst hm
        simpa using by omega
  | updateCourse cid u =>
    cases hf : db.courses.find? (fun c => c.id == cid) with
    | none =>
      simp only [Op.apply, updateCourse, hf]
      exact ⟨hc, hn⟩
    | some c0 =>
      simp only [Op.apply, updateCourse, hf]
      refine ⟨?_, hn⟩
      intro c hmem
      simp only [List.mem_map] at hmem
      obtain ⟨x, hx, hxc⟩ := hmem
      subst hxc
      by_cases hxid : (x.id == cid) = true
      · rw [if_pos hxid, applyCourseUpdate_id]
        exact hc x hx
      · rw [if_neg hxid]
        exact hc x hx
  | deleteCourse cid =>
    simp only [Op.apply, deleteCourse, if_neg]
    refine ⟨?_, hn⟩
    intro c hmem
    simp only [Bool.false_eq_true, if_false] at hmem
    exact hc c (List.mem_filter.mp hmem).1
  | createStudent inp =>
    cases hn1 : inp.name <;> cases he : inp.email <;> cases hcid : inp.courseId <;>
      simp only [Op.apply, createStudent, hn1, he, hcid] <;>
      first
      | exact ⟨hc, hn⟩
      | exact ⟨hc, by show d < db.nextId + 1; omega⟩
  | updateStudent sid u =>
    cases hf : db.students.find? (fun s => s.id == sid) with
    | none =>
      simp only [Op.apply, updateStudent, hf]
      exact ⟨hc, hn⟩
    | some s0 =>
      simp only [Op.apply, updateStudent, hf]
      exact ⟨hc, hn⟩
  | deleteStudent sid =>
    simp only [Op.apply, deleteStudent]
    exact ⟨hc, hn⟩

/-- Any sequence of API operations preserves `NoLiveCourse`. -/
theorem noLiveCourse_applyOps (d : Nat) (ops : List Op) (db : DB)
    (h : NoLiveCourse d db) : NoLiveCourse d (applyOps ops db) := by
  induction ops generalizing db with
  | nil => exact h
  | cons op rest ih => exact ih _ (noLiveCourse_apply d op db h)

/-- When no live course carries id `d`, the course listing nests no student
whose `courseId` is `d`. -/
theorem listing_no_deleted (d : Nat) (db : DB) (h : NoLiveCourse d db) :
    ∀ p ∈ listCoursesWithStudents db, ∀ s ∈ p.2, s.courseId ≠ d := by
  obtain ⟨hc, -⟩ := h
  intro p hp s hs
  simp only [listCoursesWithStudents, List.mem_map] at hp
  obtain ⟨c, hcm, rfl⟩ := hp
  simp only [List.mem_filter] at hs
  have hid : s.courseId = c.id := by simpa using hs.2
  rw [hid]
  exact hc c hcm

/-- A successful cascade delete establishes `NoLiveCourse` for the deleted
id, provided the id is below the fresh-id counter. -/
theorem noLiveCourse_after_delete (db : DB) (d : Nat) (hd : d < db.nextId) :
    NoLiveCourse d (deleteCourse false false d db).2 := by
  refine ⟨?_, ?_⟩
  · intro c hmem
    simp only [deleteCourse, Bool.false_eq_true, if_false, List.mem_filter] at hmem
    simpa using hmem.2
  · simpa [deleteCourse] using hd

/-! Claim theorems (server side). -/

/-- C1: deleting a stored course removes exactly the students whose
`courseId` is the course's id together with the course itself, leaving all
other courses and students in place; and after any further sequence of API
operations the course listing never nests a student whose `courseId` is the
deleted id. -/
theorem deleteCourse_cascade (db : DB) (c0 : Course) (s : Student) (c : Course)
    (ops : List Op) (p : Course × List Student) (t : Student)
    (hwf : ∀ x ∈ db.courses, x.id < db.nextId) (hc0 : c0 ∈ db.courses) :
    (s ∈ (deleteCourse false false c0.id db).2.students ↔
      s ∈ db.students ∧ s.courseId ≠ c0.id) ∧
    (c ∈ (deleteCourse false false c0.id db).2.courses ↔
      c ∈ db.courses ∧ c.id ≠ c0.id) ∧
    (p ∈ listCoursesWithStudents (applyOps ops (deleteCourse false false c0.id db).2) →
      t ∈ p.2 → t.courseId ≠ c0.id) := by
  have hd : c0.id < db.nextId := hwf c0 hc0
  refine ⟨?_, ?_, ?_⟩
  · simp [deleteCourse, List.mem_filter]
  · simp [deleteCourse, List.mem_filter]
  · intro hp ht
    exact listing_no_deleted c0.id _
      (noLiveCourse_applyOps c0.id ops _ (noLiveCourse_after_delete db c0.id hd))
      p hp t ht

/-- C1 witness: deleting "Math 101" from the sample store, then creating a
student that still names the deleted id, never surfaces a student of the
deleted course in the listing. -/
theorem deleteCourse_cascade_witness :
    (∀ x ∈ sampleDB.courses, x.id < sampleDB.nextId) ∧ mathCourse ∈ sampleDB.courses ∧
    ((bob ∈ (deleteCourse false false mathCourse.id sampleDB).2.students ↔
        bob ∈ sampleDB.students ∧ bob.courseId ≠ mathCourse.id) ∧
     (physCourse ∈ (deleteCourse false false mathCourse.id sampleDB).2.courses ↔
        physCourse ∈ sampleDB.courses ∧ physCourse.id ≠ mathCourse.id) ∧
     ((physCourse, [bob]) ∈ listCoursesWithStudents
          (applyOps [Op.createStudent danglingStudentInput]
            (deleteCourse false false mathCourse.id sampleDB).2) →
        bob ∈ ((physCourse, [bob]) : Course × List Student).2 →
        bob.courseId ≠ mathCourse.id)) :=
  ⟨by decide, by decide,
   deleteCourse_cascade sampleDB mathCourse bob physCourse
     [Op.createStudent danglingStudentInput] (physCourse, [bob]) bob
     (by decide) (by decide)⟩

/-- C3: the code, run on a store with no course 999, persists a student
whose `courseId` is 999 and answers 201 — it does not reject the dangling
reference (the claim and the spec require a validation failure here; the
spec itself flags the missing check as a latent bug of the source). -/
theorem createStudent_persists_dangling :
    (createStudent danglingStudentInput emptyDB).1.status = 201 ∧
    (createStudent danglingStudentInput emptyDB).2.students.map Student.courseId = [999] ∧
    emptyDB.courses.all (fun c => c.id != 999) = true := by
  decide

/-- C4: when the cascaded student deletion fails, the handler surfaces a
500 (storage fault) and the course collection is untouched — the course
record remains for retry, whatever the course-deletion oracle says. -/
theorem deleteCourse_student_failure (db : DB) (cid : Nat) (b : Bool) :
    (deleteCourse true b cid db).1.status = 500 ∧
    (deleteCourse true b cid db).2.courses = db.courses :=
  ⟨rfl, rfl⟩

/-- C5 counterexample: updating course id 5 on a store holding only course
id 1 answers HTTP 200 with a null body and changes nothing — there is no
NotFoundError and no client-fault status, contradicting the claim. -/
theorem updateCourse_unknown_answers_200 :
    (updateCourse 5 emptyCourseUpdate sampleDB).1.status = 200 ∧
    (updateCourse 5 emptyCourseUpdate sampleDB).1.body = none ∧
    (updateCourse 5 emptyCourseUpdate sampleDB).2 = sampleDB := by
  decide

/-- C5 (amended): updating a course or a student under an unknown id is a
no-op that answers HTTP 200 with a null body — not a NotFoundError. -/
theorem update_unknown_id_noop (db : DB) (cid sid : Nat) (u : CourseInput) (w : StudentUpdate)
    (hcu : ∀ c ∈ db.courses, c.id ≠ cid) (hsu : ∀ s ∈ db.students, s.id ≠ sid) :
    (updateCourse cid u db).1.status = 200 ∧ (updateCourse cid u db).1.body = none ∧
    (updateCourse cid u db).2 = db ∧
    (updateStudent sid w db).1.status = 200 ∧ (updateStudent sid w db).1.body = none ∧
    (updateStudent sid w db).2 = db := by
  have hfc : db.courses.find? (fun c => c.id == cid) = none :=
    List.find?_eq_none.mpr (fun x hx => by simpa using hcu x hx)
  have hfs : db.students.find? (fun s => s.id == sid) = none :=
    List.find?_eq_none.mpr (fun x hx => by simpa using hsu x hx)
  simp [updateCourse, updateStudent, hfc, hfs]

/-- C5 witness: the amended behavior at ids 5 and 7 on the sample store. -/
theorem update_unknown_id_noop_witness :
    (∀ c ∈ sampleDB.courses, c.id ≠ 5) ∧ (∀ s ∈ sampleDB.students, s.id ≠ 7) ∧
    ((updateCourse 5 emptyCourseUpdate sampleDB).1.status = 200 ∧
     (updateCourse 5 emptyCourseUpdate sampleDB).1.body = none ∧
     (updateCourse 5 emptyCourseUpdate sampleDB).2 = sampleDB ∧
     (updateStudent 7 emptyStudentUpdate sampleDB).1.status = 200 ∧
     (updateStudent 7 emptyStudentUpdate sampleDB).1.body = none ∧
     (updateStudent 7 emptyStudentUpdate sampleDB).2 = sampleDB) :=
  ⟨by decide, by decide,
   update_unknown_id_noop sampleDB 5 7 emptyCourseUpdate emptyStudentUpdate
     (by decide) (by decide)⟩

/-- C8: deleting a student id that matches no stored student answers 200
(no error) and leaves the whole store — every course and every student —
unchanged. -/
theorem deleteStudent_unknown_id_noop (db : DB) (sid : Nat)
    (h : ∀ s ∈ db.students, s.id ≠ sid) :
    (deleteStudent sid db).1.status = 200 ∧ (deleteStudent sid db).2 = db := by
  refine ⟨rfl, ?_⟩
  simp only [deleteStudent]
  have hf : db.students.filter (fun s => s.id != sid) = db.students :=
    List.filter_eq_self.mpr (fun x hx => by simpa using h x hx)
  rw [hf]

/-- C8 witness: deleting the unknown student id 7 (twice-deleted, say) on
the sample store is a 200 no-op. -/
theorem deleteStudent_unknown_id_noop_witness :
    (∀ s ∈ sampleDB.students, s.id ≠ 7) ∧
    ((deleteStudent 7 sampleDB).1.status = 200 ∧ (deleteStudent 7 sampleDB).2 = sampleDB) :=
  ⟨by decide, deleteStudent_unknown_id_noop sampleDB 7 (by decide)⟩

end CourseMgmt
